import Mathlib

/-!
Verification of the spray-tower scrubber calculation pipeline.

The TypeScript sources are shallowly embedded over the real numbers:
every numeric field of the program becomes an `ℝ`, JavaScript's
division is Lean's field division, `Math.log` / `Math.sqrt` /
`Math.pow` become `Real.log` / `Real.sqrt` / real `rpow`, and the
JavaScript falsiness idiom `x || d` on an optional number becomes
`jsOrOpt`.  A lookup in a static table that can fail (and in the
program throws a `TypeError` on the subsequent property access)
becomes an `Option`: `none` models the thrown error.
-/

namespace SprayTower

open Real

/-- Pollutant property record from `POLLUTANT_LIBRARY` in `constants.ts`. -/
structure PollutantData where
  henryConstant : ℝ
  diffusivity : ℝ
  molarMass : ℝ

/-- The static pollutant table of `constants.ts`; an unknown key is `none`
(the program would throw on first property access). -/
noncomputable def POLLUTANT_LIBRARY : String → Option PollutantData
  | "SO2" => some ⟨1230, 0.000012, 64.066⟩
  | "HCl" => some ⟨0.194, 0.000016, 36.461⟩
  | "NH3" => some ⟨6600, 0.000021, 17.031⟩
  | "H2S" => some ⟨930, 0.000014, 34.08⟩
  | _ => none

/-- The `k` coefficient of each nozzle in `NOZZLE_LIBRARY` of `constants.ts`
(the string fields of the table play no computational role). -/
noncomputable def NOZZLE_LIBRARY : String → Option ℝ
  | "FullCone-1/2-15" => some 1.5
  | "HollowCone-3/4-25" => some 2.6
  | "Spiral-1/2-10" => some 1.2
  | _ => none

/-- JavaScript `x || d` for an optional number `x`: absent or zero falls
back to the default `d` (`0` is falsy in JavaScript). -/
noncomputable def jsOrOpt (x : Option ℝ) (d : ℝ) : ℝ :=
  match x with
  | none => d
  | some v => if v = 0 then d else v

/-- `GasStreamProperties` of `types/index.ts`; the optional viscosity
override is an `Option`. -/
structure GasStreamProperties where
  gasFlowRate : ℝ
  temperature : ℝ
  pressure : ℝ
  gasViscosity : Option ℝ

/-- `PollutantProperties` of `types/index.ts`; the type is kept as a raw
string so that lookups outside the static table are expressible. -/
structure PollutantProperties where
  type : String
  inletConcentration : ℝ
  targetEfficiency : ℝ

/-- `TowerParameters` of `types/index.ts`. -/
structure TowerParameters where
  lgRatio : ℝ
  liquidDensity : ℝ
  liquidViscosity : ℝ
  gasVelocity : ℝ
  dropletSize : ℝ
  nozzleType : Option String
  nozzlePressure : ℝ
  kgaOverride : Option ℝ
  frictionFactor : ℝ
  pumpHead : ℝ
  naohStoichiometry : ℝ

/-- Regulatory framework enumeration. -/
inductive RegulatoryFramework where
  | EU
  | US
deriving DecidableEq

/-- Unit system enumeration. -/
inductive UnitSystem where
  | metric
  | imperial
deriving DecidableEq

/-- `SystemSettings` of `types/index.ts` (the application type does not
enter any calculation). -/
structure SystemSettings where
  unitSystem : UnitSystem
  regulatoryFramework : RegulatoryFramework
  applicationType : String

/-- `CalculatorInput` of `types/index.ts`. -/
structure CalculatorInput where
  gasStream : GasStreamProperties
  pollutant : PollutantProperties
  tower : TowerParameters
  settings : SystemSettings

/-- Output record of `calculateGasProperties` (`gas-properties.ts`). -/
structure GasPropertiesResults where
  operatingTemp : ℝ
  operatingPressure : ℝ
  gasDensity : ℝ
  operatingGasFlow : ℝ
  effectiveGasViscosity : ℝ

/-- `calculateGasProperties` of `gas-properties.ts`: Kelvin/Pa conversion,
ideal-gas density, standard-to-operating flow scaling, viscosity default. -/
noncomputable def calculateGasProperties (gasStream : GasStreamProperties) :
    GasPropertiesResults :=
  let operatingTemp := gasStream.temperature + 273.15
  let operatingPressure := gasStream.pressure * 1000
  let gasDensity := (operatingPressure * 0.02897) / (8.314462618 * operatingTemp)
  let standardFlow := gasStream.gasFlowRate / 3600
  let operatingGasFlow :=
    standardFlow * (operatingTemp / 273.15) * (101325 / operatingPressure)
  let effectiveGasViscosity := jsOrOpt gasStream.gasViscosity 0.0000185
  ⟨operatingTemp, operatingPressure, gasDensity, operatingGasFlow,
    effectiveGasViscosity⟩

/-- Output record of `calculateTowerSizing` (`tower-sizing.ts`). -/
structure TowerSizingResults where
  towerArea : ℝ
  towerDiameter : ℝ
  liquidFlowRate : ℝ
  liquidRate : ℝ
  liquidFlux : ℝ

/-- `calculateTowerSizing` of `tower-sizing.ts`. -/
noncomputable def calculateTowerSizing (operatingGasFlow gasVelocity lgRatio : ℝ) :
    TowerSizingResults :=
  let towerArea := operatingGasFlow / gasVelocity
  let towerDiameter := Real.sqrt ((4 * towerArea) / π)
  let liquidFlowRate := lgRatio * operatingGasFlow
  let liquidRate := liquidFlowRate * 3600
  let liquidFlux := liquidFlowRate / towerArea
  ⟨towerArea, towerDiameter, liquidFlowRate, liquidRate, liquidFlux⟩

/-- Output record of `calculateMassTransfer` (`mass-transfer.ts`). -/
structure MassTransferResults where
  dropletDiameter : ℝ
  relativeVelocity : ℝ
  reynoldsNumber : ℝ
  schmidtNumber : ℝ
  sherwoodNumber : ℝ
  gasFilmCoefficient : ℝ
  interfacialArea : ℝ
  overallKGa : ℝ

/-- The empirical KGa correlation branch of `calculateMassTransfer`:
`0.1586 * G_m^0.8 * L^0.4` with the source's approximate molar gas flow
and liquid-flux unit rescaling, guarded by `liquidFlux > 0`. -/
noncomputable def calculatedKGa (gasDensity gasVelocity liquidFlux : ℝ) : ℝ :=
  if liquidFlux > 0 then
    0.1586 * ((gasDensity * gasVelocity * 1 / 29) ^ (0.8 : ℝ)) *
      ((liquidFlux * 1000) ^ (0.4 : ℝ))
  else 0

/-- Body of `calculateMassTransfer` (`mass-transfer.ts`) once the pollutant
lookup has produced `pollutantData`. -/
noncomputable def massTransferCore (pollutantData : PollutantData)
    (tower : TowerParameters)
    (gasDensity gasViscosity gasVelocity liquidFlux : ℝ) : MassTransferResults :=
  let dropletDiameter := tower.dropletSize * 0.001
  let relativeVelocity := gasVelocity
  let reynoldsNumber := (gasDensity * relativeVelocity * dropletDiameter) / gasViscosity
  let schmidtNumber := gasViscosity / (gasDensity * pollutantData.diffusivity)
  let sherwoodNumber :=
    2 + 0.6 * reynoldsNumber ^ (0.5 : ℝ) * schmidtNumber ^ ((1 : ℝ) / 3)
  let gasFilmCoefficient := (sherwoodNumber * pollutantData.diffusivity) / dropletDiameter
  let interfacialArea :=
    if relativeVelocity > 0 then (6 * liquidFlux) / (relativeVelocity * dropletDiameter)
    else 0
  let overallKGa := jsOrOpt tower.kgaOverride (calculatedKGa gasDensity gasVelocity liquidFlux)
  ⟨dropletDiameter, relativeVelocity, reynoldsNumber, schmidtNumber, sherwoodNumber,
    gasFilmCoefficient, interfacialArea, overallKGa⟩

/-- `calculateMassTransfer` of `mass-transfer.ts`: `none` models the
`TypeError` thrown when the pollutant is not in the static table. -/
noncomputable def calculateMassTransfer (pollutant : PollutantProperties)
    (tower : TowerParameters)
    (gasDensity gasViscosity gasVelocity liquidFlux : ℝ) : Option MassTransferResults :=
  (POLLUTANT_LIBRARY pollutant.type).map fun pollutantData =>
    massTransferCore pollutantData tower gasDensity gasViscosity gasVelocity liquidFlux

/-- Output record of `calculateDropletPhysics` (`advanced-calculations.ts`). -/
structure DropletPhysics where
  terminalVelocity : ℝ
  relativeVelocity : ℝ
  contactTime : ℝ
  reynoldsNumber : ℝ

/-- One pass of the terminal-velocity loop body in `calculateDropletPhysics`:
Reynolds number from the current guess, Schiller–Naumann drag coefficient
(capped at `0.44` above `Re = 1000`), then the new terminal velocity. -/
noncomputable def dropStep (dropletDiameter gasDensity gasViscosity liquidDensity : ℝ)
    (terminalVelocity : ℝ) : ℝ :=
  let reynolds := (gasDensity * terminalVelocity * dropletDiameter) / gasViscosity
  let dragCoeff :=
    if reynolds > 1000 then 0.44
    else 24 / reynolds * (1 + 0.15 * reynolds ^ (0.687 : ℝ))
  Real.sqrt ((4 * 9.80665 * dropletDiameter * (liquidDensity - gasDensity)) /
    (3 * dragCoeff * gasDensity))

/-- The bounded fixed-point loop of `calculateDropletPhysics`: apply `f`
until the update moves less than `1e-3` or the fuel (the source's 10-pass
`for` loop) runs out; either way the last computed `f`-value is returned. -/
noncomputable def dropIterate (f : ℝ → ℝ) : ℕ → ℝ → ℝ
  | 0, v => v
  | n + 1, v =>
    let v' := f v
    if |v' - v| < 0.001 then v' else dropIterate f n v'

/-- `calculateDropletPhysics` of `advanced-calculations.ts`. -/
noncomputable def calculateDropletPhysics
    (dropletSize gasVelocity gasDensity gasViscosity liquidDensity sprayHeight : ℝ) :
    DropletPhysics :=
  let dropletDiameter := dropletSize * 0.001
  let terminalVelocity :=
    dropIterate (dropStep dropletDiameter gasDensity gasViscosity liquidDensity) 10 1.0
  let relativeVelocity := max 0 (terminalVelocity - gasVelocity)
  let contactTime := if relativeVelocity > 0 then sprayHeight / relativeVelocity else 0
  let reynoldsNumber := (gasDensity * terminalVelocity * dropletDiameter) / gasViscosity
  ⟨terminalVelocity, relativeVelocity, contactTime, reynoldsNumber⟩

/-- Output record of `calculateParticulateEfficiency`. -/
structure ParticulateEfficiency where
  coarse_10um : ℝ
  medium_2um : ℝ
  fine_1um : ℝ

/-- `calculateParticulateEfficiency` of `advanced-calculations.ts`. -/
noncomputable def calculateParticulateEfficiency
    (dropletSize gasVelocity liquidFlux sprayHeight relativeVelocity : ℝ) :
    ParticulateEfficiency :=
  let contactingPower := liquidFlux * relativeVelocity
  let residenceTime := sprayHeight / max gasVelocity 0.1
  let nt_coarse := min 10 (contactingPower * residenceTime * 50 / dropletSize)
  let coarse_10um := min 0.99 (1 - Real.exp (-nt_coarse))
  let nt_medium := min 5 (contactingPower * residenceTime * 10 / dropletSize)
  let medium_2um := min 0.80 (1 - Real.exp (-nt_medium))
  let nt_fine := min 2 (contactingPower * residenceTime * 2 / dropletSize)
  let fine_1um := min 0.20 (1 - Real.exp (-nt_fine))
  ⟨coarse_10um, medium_2um, fine_1um⟩

/-- Compliance record returned by `calculateComplianceStatus`. -/
structure ComplianceStatus where
  framework : RegulatoryFramework
  emissionLimitsMet : Bool
  pressureVesselCode : String
  safetyClassification : String

/-- The EU emission-limit table hard-coded in `calculateComplianceStatus`
(`advanced-calculations.ts`) and duplicated in `getEmissionLimits`
(`compliance-optimizer.ts`). -/
noncomputable def euLimits : String → Option ℝ
  | "SO2" => some 200
  | "HCl" => some 10
  | "NH3" => some 50
  | "H2S" => some 5
  | _ => none

/-- The US emission-limit table of `getEmissionLimits`
(`compliance-optimizer.ts`); the compliance evaluator itself has no US
table and reports US limits as always met. -/
noncomputable def usLimits : String → Option ℝ
  | "SO2" => some 400
  | "HCl" => some 25
  | "NH3" => some 100
  | "H2S" => some 15
  | _ => none

/-- `calculateComplianceStatus` of `advanced-calculations.ts`.  The EU
branch consults `euLimits` (the `limit &&` truthiness check becomes
`limit ≠ 0 ∧ ...`); the US branch never fails the emission check. -/
noncomputable def calculateComplianceStatus (framework : RegulatoryFramework)
    (outletConcentration pressure : ℝ) (pollutantType : String) : ComplianceStatus :=
  match framework with
  | .EU =>
    let pressureVesselCode :=
      if pressure > 50000 then "EU PED (>0.5 bar)" else "Atmospheric vessel"
    let emissionLimitsMet : Bool :=
      match euLimits pollutantType with
      | some limit => if limit ≠ 0 ∧ outletConcentration > limit then false else true
      | none => true
    ⟨.EU, emissionLimitsMet, pressureVesselCode,
      "ATEX assessment required for flammable gases"⟩
  | .US =>
    let pressureVesselCode :=
      if pressure > 103421 then "ASME BPVC Section VIII" else "Atmospheric vessel"
    ⟨.US, true, pressureVesselCode, "OSHA/NFPA compliance required"⟩

/-- Output record of `calculatePerformance` (`performance.ts`). -/
structure PerformanceResults where
  requiredHeight : ℝ
  gasResidenceTime : ℝ
  outletConcentration : ℝ
  pressureDrop : ℝ
  molesRemoved : ℝ
  naohConsumption : ℝ
  numberOfTransferUnits : ℝ
  nozzleFlowPerNozzle : Option ℝ
  requiredNozzles : Option ℤ

/-- Body of `calculatePerformance` (`performance.ts`) once the pollutant
lookup has produced `pollutantData`. -/
noncomputable def perfCore (pollutantData : PollutantData)
    (pollutant : PollutantProperties) (tower : TowerParameters)
    (gasFlowRate gasVelocity towerDiameter gasDensity liquidRate overallKGa
      towerArea operatingGasFlow operatingTemp : ℝ) : PerformanceResults :=
  let outletConcentration :=
    pollutant.inletConcentration * (1 - pollutant.targetEfficiency)
  let numberOfTransferUnits :=
    if outletConcentration > 0 then
      Real.log (pollutant.inletConcentration / outletConcentration)
    else 0
  let molarGasFlow := (101325 * operatingGasFlow) / (8314.462618 * operatingTemp)
  let sprayZoneVolume :=
    if overallKGa > 0 ∧ numberOfTransferUnits > 0 then
      (molarGasFlow * numberOfTransferUnits) / overallKGa
    else 0
  let requiredHeight :=
    if towerArea > 0 ∧ sprayZoneVolume > 0 then sprayZoneVolume / towerArea else 0
  let gasResidenceTime := if gasVelocity > 0 then requiredHeight / gasVelocity else 0
  let pressureDrop :=
    tower.frictionFactor * (requiredHeight / towerDiameter) *
      (gasDensity * gasVelocity ^ 2 / 2)
  let concentrationDifference := pollutant.inletConcentration - outletConcentration
  let molesRemoved :=
    (gasFlowRate * concentrationDifference / 1000) / pollutantData.molarMass * 1000
  let naohConsumption := molesRemoved * tower.naohStoichiometry
  let nozzle : Option (ℝ × ℤ) :=
    match tower.nozzleType with
    | some nt =>
      match NOZZLE_LIBRARY nt with
      | some k =>
        let flow := k * Real.sqrt tower.nozzlePressure
        some (flow, ⌈liquidRate / flow⌉)
      | none => none
    | none => none
  ⟨requiredHeight, gasResidenceTime, outletConcentration, pressureDrop,
    molesRemoved, naohConsumption, numberOfTransferUnits,
    nozzle.map Prod.fst, nozzle.map Prod.snd⟩

/-- `calculatePerformance` of `performance.ts`: `none` models the
`TypeError` thrown when the pollutant is not in the static table. -/
noncomputable def calculatePerformance (pollutant : PollutantProperties)
    (tower : TowerParameters)
    (gasFlowRate gasVelocity towerDiameter gasDensity liquidRate overallKGa
      towerArea operatingGasFlow operatingTemp : ℝ) : Option PerformanceResults :=
  (POLLUTANT_LIBRARY pollutant.type).map fun pollutantData =>
    perfCore pollutantData pollutant tower gasFlowRate gasVelocity towerDiameter
      gasDensity liquidRate overallKGa towerArea operatingGasFlow operatingTemp

/-- `CalculationResults` of `types/index.ts`, the aggregate pipeline output. -/
structure CalculationResults where
  towerDiameter : ℝ
  requiredHeight : ℝ
  gasResidenceTime : ℝ
  pressureDrop : ℝ
  outletConcentration : ℝ
  overallKGa : ℝ
  interfacialArea : ℝ
  gasDensity : ℝ
  liquidRate : ℝ
  naohConsumption : ℝ
  operatingGasFlow : ℝ
  towerArea : ℝ
  liquidFlowRate : ℝ
  nozzleFlowPerNozzle : Option ℝ
  requiredNozzles : Option ℤ
  molesRemoved : ℝ
  numberOfTransferUnits : ℝ
  dropletTerminalVelocity : ℝ
  relativeVelocity : ℝ
  dropletContactTime : ℝ
  reynoldsNumber : ℝ
  schmidtNumber : ℝ
  sherwoodNumber : ℝ
  particulateEfficiency : ParticulateEfficiency
  complianceStatus : ComplianceStatus

/-- Body of `calculateSprayTower` (`calculator.ts`) once the pollutant
lookup has produced `pollutantData`: the fixed stage composition plus the
final metric/imperial unit projection.  Both in-pipeline lookups
(`calculateMassTransfer`, `calculatePerformance`) consult the same table
with the same key, so the whole pipeline factors through one lookup. -/
noncomputable def sprayTowerCore (pollutantData : PollutantData)
    (input : CalculatorInput) : CalculationResults :=
  let gasProps := calculateGasProperties input.gasStream
  let towerSizing :=
    calculateTowerSizing gasProps.operatingGasFlow input.tower.gasVelocity
      input.tower.lgRatio
  let massTransfer :=
    massTransferCore pollutantData input.tower gasProps.gasDensity
      gasProps.effectiveGasViscosity input.tower.gasVelocity towerSizing.liquidFlux
  let dropletPhysics :=
    calculateDropletPhysics input.tower.dropletSize input.tower.gasVelocity
      gasProps.gasDensity gasProps.effectiveGasViscosity input.tower.liquidDensity 5.0
  let performance :=
    perfCore pollutantData input.pollutant input.tower input.gasStream.gasFlowRate
      input.tower.gasVelocity towerSizing.towerDiameter gasProps.gasDensity
      towerSizing.liquidRate massTransfer.overallKGa towerSizing.towerArea
      gasProps.operatingGasFlow gasProps.operatingTemp
  let particulateEff :=
    calculateParticulateEfficiency input.tower.dropletSize input.tower.gasVelocity
      towerSizing.liquidFlux performance.requiredHeight dropletPhysics.relativeVelocity
  let compliance :=
    calculateComplianceStatus input.settings.regulatoryFramework
      performance.outletConcentration gasProps.operatingPressure input.pollutant.type
  let isImperial := input.settings.unitSystem = UnitSystem.imperial
  let convertLength := fun (v : ℝ) => if isImperial then v * 3.28084 else v
  let convertArea := fun (v : ℝ) => if isImperial then v * 10.7639 else v
  let convertPressure := fun (v : ℝ) => if isImperial then v * 0.00401463 else v
  let convertDensity := fun (v : ℝ) => if isImperial then v * 0.062428 else v
  let convertVelocity := fun (v : ℝ) => if isImperial then v * 3.28084 else v
  let convertLiquidRate := fun (v : ℝ) => if isImperial then v * 4.40287 else v
  { towerDiameter := convertLength towerSizing.towerDiameter
    requiredHeight := convertLength performance.requiredHeight
    gasResidenceTime := performance.gasResidenceTime
    pressureDrop := convertPressure performance.pressureDrop
    outletConcentration := performance.outletConcentration
    overallKGa := massTransfer.overallKGa
    interfacialArea := massTransfer.interfacialArea
    gasDensity := convertDensity gasProps.gasDensity
    liquidRate := convertLiquidRate towerSizing.liquidRate
    naohConsumption := performance.naohConsumption
    operatingGasFlow :=
      if isImperial then gasProps.operatingGasFlow * 127133 else gasProps.operatingGasFlow
    towerArea := convertArea towerSizing.towerArea
    liquidFlowRate :=
      if isImperial then towerSizing.liquidFlowRate * 4.40287 / 60
      else towerSizing.liquidFlowRate
    nozzleFlowPerNozzle :=
      match performance.nozzleFlowPerNozzle with
      | some v => if v = 0 then none else some (convertLiquidRate v)
      | none => none
    requiredNozzles := performance.requiredNozzles
    molesRemoved := performance.molesRemoved
    numberOfTransferUnits := performance.numberOfTransferUnits
    dropletTerminalVelocity := convertVelocity dropletPhysics.terminalVelocity
    relativeVelocity := convertVelocity dropletPhysics.relativeVelocity
    dropletContactTime := dropletPhysics.contactTime
    reynoldsNumber := massTransfer.reynoldsNumber
    schmidtNumber := massTransfer.schmidtNumber
    sherwoodNumber := massTransfer.sherwoodNumber
    particulateEfficiency := particulateEff
    complianceStatus := compliance }

/-- `calculateSprayTower` of `calculator.ts`: the fixed pipeline.  It is
`none` exactly when the pollutant lookup fails (the program throws inside
`calculateMassTransfer`, the first stage to dereference the lookup). -/
noncomputable def calculateSprayTower (input : CalculatorInput) :
    Option CalculationResults :=
  (POLLUTANT_LIBRARY input.pollutant.type).map fun pollutantData =>
    sprayTowerCore pollutantData input

/-- `getEmissionLimits` of `compliance-optimizer.ts`; the `|| default`
fallbacks (100 for EU, 200 for US) are the source's. -/
noncomputable def getEmissionLimits (framework : RegulatoryFramework)
    (pollutantType : String) : ℝ :=
  match framework with
  | .EU => jsOrOpt (euLimits pollutantType) 100
  | .US => jsOrOpt (usLimits pollutantType) 200

/-- `OptimizationResult` of `compliance-optimizer.ts`.  `evaluations`
models the data content of the append-only optimization log: one entry
per pipeline evaluation, in order (the initial evaluation first). -/
structure OptimizationResult where
  results : CalculationResults
  optimizedInput : CalculatorInput
  iterations : ℕ
  convergenceReached : Bool
  evaluations : List CalculationResults

/-- One parameter mutation of the optimization loop at iteration `i`
(`compliance-optimizer.ts`): phase 1 (`i ≤ 0.4·max`) scales the L/G
ratio from the original input and pins the target efficiency; phase 2
(`i ≤ 0.7·max`) scales gas velocity down (floor 0.5); phase 3 scales
droplet size down (floor 0.5).  Scale factors are taken from the
original `input`, carried mutations from `cur`, exactly as the source. -/
noncomputable def optStep (input cur : CalculatorInput) (maxIterations : ℕ)
    (requiredEfficiency : ℝ) (i : ℕ) : CalculatorInput :=
  if (i : ℝ) ≤ (maxIterations : ℝ) * 0.4 then
    { cur with
      tower := { cur.tower with lgRatio := input.tower.lgRatio * (1 + (i : ℝ) * 0.1) }
      pollutant := { cur.pollutant with targetEfficiency := requiredEfficiency } }
  else if (i : ℝ) ≤ (maxIterations : ℝ) * 0.7 then
    { cur with
      tower := { cur.tower with
        gasVelocity :=
          input.tower.gasVelocity *
            max 0.5 (1 - ((i : ℝ) - (maxIterations : ℝ) * 0.4) * 0.05) } }
  else
    { cur with
      tower := { cur.tower with
        dropletSize :=
          input.tower.dropletSize *
            max 0.5 (1 - ((i : ℝ) - (maxIterations : ℝ) * 0.7) * 0.1) } }

/-- The optimization loop of `optimizeForCompliance`, recursing on the
remaining iteration budget.  `i` is the source's `iterations` counter,
`last` the most recent results, `best` the best-so-far accumulator,
`trace` the evaluations so far in reverse order.  Exhaustion and the
post-iteration-5 divergence check both fall back to the best result with
`convergenceReached = false`; a compliant iteration exits with `true`. -/
noncomputable def optLoop (input : CalculatorInput) (maxIterations : ℕ)
    (requiredEfficiency targetOutlet : ℝ) :
    ℕ → ℕ → CalculatorInput → CalculationResults →
      Option (CalculationResults × CalculatorInput) → List CalculationResults →
      Option OptimizationResult
  | 0, i, cur, last, best, trace =>
    some (match best with
      | some (bestResults, bestInput) => ⟨bestResults, bestInput, i, false, trace.reverse⟩
      | none => ⟨last, cur, i, false, trace.reverse⟩)
  | rem + 1, i, cur, _, best, trace =>
    let next := optStep input cur maxIterations requiredEfficiency i
    match calculateSprayTower next with
    | none => none
    | some results =>
      let trace' := results :: trace
      if results.complianceStatus.emissionLimitsMet then
        some ⟨results, next, i, true, trace'.reverse⟩
      else
        let best' :=
          match best with
          | none => some (results, next)
          | some (bestResults, bestInput) =>
            if results.outletConcentration < bestResults.outletConcentration then
              some (results, next)
            else some (bestResults, bestInput)
        if 5 < i ∧ results.outletConcentration > targetOutlet * 2 then
          some (match best' with
            | some (bestResults, bestInput) =>
              ⟨bestResults, bestInput, i, false, trace'.reverse⟩
            | none => ⟨results, next, i, false, trace'.reverse⟩)
        else
          optLoop input maxIterations requiredEfficiency targetOutlet rem (i + 1)
            next results best' trace'

/-- `optimizeForCompliance` of `compliance-optimizer.ts` (the source's
default budget is `maxIterations = 20`).  `none` models the error thrown
by the pipeline on an unknown pollutant; every other outcome is a
returned record, never an error. -/
noncomputable def optimizeForCompliance (input : CalculatorInput)
    (maxIterations : ℕ) : Option OptimizationResult :=
  match calculateSprayTower input with
  | none => none
  | some results =>
    if results.complianceStatus.emissionLimitsMet then
      some ⟨results, input, 0, true, [results]⟩
    else
      let emissionLimits :=
        getEmissionLimits input.settings.regulatoryFramework input.pollutant.type
      let targetOutlet := emissionLimits * 0.9
      let requiredEfficiency := 1 - targetOutlet / input.pollutant.inletConcentration
      optLoop input maxIterations requiredEfficiency targetOutlet maxIterations 1
        input results none [results]

/-- The emission-limit table that `calculateComplianceStatus` actually
consults, as a function of the framework: the EU branch reads `euLimits`;
the US branch consults no table at all, so its table is empty. -/
noncomputable def evaluatorEmissionLimit :
    RegulatoryFramework → String → Option ℝ
  | .EU, pollutantType => euLimits pollutantType
  | .US, _ => none

lemma euLimits_pos {t : String} {l : ℝ} (h : euLimits t = some l) : 0 < l := by
  unfold euLimits at h
  split at h <;> simp_all
  all_goals subst h
  all_goals norm_num

lemma POLLUTANT_LIBRARY_eq_none {t : String}
    (h : t ∉ (["SO2", "HCl", "NH3", "H2S"] : List String)) :
    POLLUTANT_LIBRARY t = none := by
  unfold POLLUTANT_LIBRARY
  split <;> simp_all

lemma perfCore_outlet (pd : PollutantData) (p : PollutantProperties)
    (tw : TowerParameters) (a b c d e f g h i : ℝ) :
    (perfCore pd p tw a b c d e f g h i).outletConcentration =
      p.inletConcentration * (1 - p.targetEfficiency) := rfl

lemma perfCore_ntu (pd : PollutantData) (p : PollutantProperties)
    (tw : TowerParameters) (a b c d e f g h i : ℝ) :
    (perfCore pd p tw a b c d e f g h i).numberOfTransferUnits =
      if p.inletConcentration * (1 - p.targetEfficiency) > 0 then
        Real.log (p.inletConcentration /
          (p.inletConcentration * (1 - p.targetEfficiency)))
      else 0 := rfl

lemma perfCore_height (pd : PollutantData) (p : PollutantProperties)
    (tw : TowerParameters) (a b c d e f g h i : ℝ) :
    (perfCore pd p tw a b c d e f g h i).requiredHeight =
      if g > 0 ∧
          (if f > 0 ∧ (perfCore pd p tw a b c d e f g h i).numberOfTransferUnits > 0 then
            ((101325 * h) / (8314.462618 * i)) *
                (perfCore pd p tw a b c d e f g h i).numberOfTransferUnits / f
          else 0) > 0 then
        (if f > 0 ∧ (perfCore pd p tw a b c d e f g h i).numberOfTransferUnits > 0 then
          ((101325 * h) / (8314.462618 * i)) *
              (perfCore pd p tw a b c d e f g h i).numberOfTransferUnits / f
        else 0) / g
      else 0 := rfl

lemma perfCore_moles (pd : PollutantData) (p : PollutantProperties)
    (tw : TowerParameters) (a b c d e f g h i : ℝ) :
    (perfCore pd p tw a b c d e f g h i).molesRemoved =
      (a * (p.inletConcentration -
          p.inletConcentration * (1 - p.targetEfficiency)) / 1000) /
        pd.molarMass * 1000 := rfl

lemma perfCore_naoh (pd : PollutantData) (p : PollutantProperties)
    (tw : TowerParameters) (a b c d e f g h i : ℝ) :
    (perfCore pd p tw a b c d e f g h i).naohConsumption =
      (perfCore pd p tw a b c d e f g h i).molesRemoved * tw.naohStoichiometry := rfl

lemma massTransferCore_kga (pd : PollutantData) (tw : TowerParameters)
    (gd gv gvel lf : ℝ) :
    (massTransferCore pd tw gd gv gvel lf).overallKGa =
      jsOrOpt tw.kgaOverride (calculatedKGa gd gvel lf) := rfl

/-- C1.  Mass balance: for every input with `inletConcentration > 0` and
`targetEfficiency ∈ (0,1)`, the performance calculation returns
`outletConcentration = inletConcentration * (1 - targetEfficiency)` with
`0 ≤ outlet ≤ inlet`, and the outlet is a direct target-efficiency
substitution: it does not depend on the `overallKGa` argument. -/
theorem mass_balance_outlet (pollutant : PollutantProperties)
    (tower : TowerParameters)
    (gasFlowRate gasVelocity towerDiameter gasDensity liquidRate overallKGa
      towerArea operatingGasFlow operatingTemp : ℝ) (r : PerformanceResults)
    (hr : calculatePerformance pollutant tower gasFlowRate gasVelocity towerDiameter
        gasDensity liquidRate overallKGa towerArea operatingGasFlow operatingTemp =
      some r)
    (hin : 0 < pollutant.inletConcentration)
    (he0 : 0 < pollutant.targetEfficiency) (he1 : pollutant.targetEfficiency < 1) :
    r.outletConcentration =
        pollutant.inletConcentration * (1 - pollutant.targetEfficiency) ∧
      0 ≤ r.outletConcentration ∧
      r.outletConcentration ≤ pollutant.inletConcentration ∧
      ∀ overallKGa' r',
        calculatePerformance pollutant tower gasFlowRate gasVelocity towerDiameter
            gasDensity liquidRate overallKGa' towerArea operatingGasFlow
            operatingTemp = some r' →
          r'.outletConcentration = r.outletConcentration := by
  rw [calculatePerformance, Option.map_eq_some'] at hr
  obtain ⟨pd, hpd, rfl⟩ := hr
  refine ⟨perfCore_outlet .., ?_, ?_, ?_⟩
  · rw [perfCore_outlet]; nlinarith
  · rw [perfCore_outlet]; nlinarith
  · intro overallKGa' r' hr'
    rw [calculatePerformance, Option.map_eq_some'] at hr'
    obtain ⟨pd', hpd', rfl⟩ := hr'
    rw [perfCore_outlet, perfCore_outlet]

/-- C2.  NTU identity: the returned `numberOfTransferUnits` is
`ln(inlet/outlet)` when the returned outlet concentration is positive and
`0` when it is zero. -/
theorem ntu_identity (pollutant : PollutantProperties) (tower : TowerParameters)
    (gasFlowRate gasVelocity towerDiameter gasDensity liquidRate overallKGa
      towerArea operatingGasFlow operatingTemp : ℝ) (r : PerformanceResults)
    (hr : calculatePerformance pollutant tower gasFlowRate gasVelocity towerDiameter
        gasDensity liquidRate overallKGa towerArea operatingGasFlow operatingTemp =
      some r) :
    (0 < r.outletConcentration →
      r.numberOfTransferUnits =
        Real.log (pollutant.inletConcentration / r.outletConcentration)) ∧
    (r.outletConcentration = 0 → r.numberOfTransferUnits = 0) := by
  rw [calculatePerformance, Option.map_eq_some'] at hr
  obtain ⟨pd, hpd, rfl⟩ := hr
  rw [perfCore_outlet, perfCore_ntu]
  constructor
  · intro hpos
    rw [if_pos hpos]
  · intro hzero
    rw [if_neg]
    rw [hzero]
    exact lt_irrefl 0

/-- C5.  Height zero-guard: the required spray-zone volume is
`G_m·NTU/KGa` when `KGa > 0` and `NTU > 0` and `0` otherwise, the
required height is `volume/towerArea` when both volume and area are
positive and `0` otherwise, and in particular a zero `KGa` or zero NTU
yields `requiredHeight = 0` (the function stays total: no error). -/
theorem height_zero_guard (pollutant : PollutantProperties)
    (tower : TowerParameters)
    (gasFlowRate gasVelocity towerDiameter gasDensity liquidRate overallKGa
      towerArea operatingGasFlow operatingTemp : ℝ) (r : PerformanceResults)
    (hr : calculatePerformance pollutant tower gasFlowRate gasVelocity towerDiameter
        gasDensity liquidRate overallKGa towerArea operatingGasFlow operatingTemp =
      some r) :
    ∃ V : ℝ,
      V = (if overallKGa > 0 ∧ r.numberOfTransferUnits > 0 then
          ((101325 * operatingGasFlow) / (8314.462618 * operatingTemp)) *
            r.numberOfTransferUnits / overallKGa
        else 0) ∧
      r.requiredHeight = (if towerArea > 0 ∧ V > 0 then V / towerArea else 0) ∧
      (overallKGa = 0 → r.requiredHeight = 0) ∧
      (r.numberOfTransferUnits = 0 → r.requiredHeight = 0) := by
  rw [calculatePerformance, Option.map_eq_some'] at hr
  obtain ⟨pd, hpd, rfl⟩ := hr
  refine ⟨_, rfl, perfCore_height .., ?_, ?_⟩
  · intro hk
    rw [perfCore_height]
    have hc : ¬(overallKGa > 0 ∧
        (perfCore pd pollutant tower gasFlowRate gasVelocity towerDiameter gasDensity
          liquidRate overallKGa towerArea operatingGasFlow
          operatingTemp).numberOfTransferUnits > 0) := by
      rintro ⟨h1, -⟩; rw [hk] at h1; exact lt_irrefl 0 h1
    rw [if_neg hc]
    simp
  · intro hn
    rw [perfCore_height]
    have hc : ¬(overallKGa > 0 ∧
        (perfCore pd pollutant tower gasFlowRate gasVelocity towerDiameter gasDensity
          liquidRate overallKGa towerArea operatingGasFlow
          operatingTemp).numberOfTransferUnits > 0) := by
      rintro ⟨-, h2⟩; rw [hn] at h2; exact lt_irrefl 0 h2
    rw [if_neg hc]
    simp

/-- C6.  Moles removed and reagent consumption: the returned
`molesRemoved` equals `standardFlow · (inlet − outlet) / molarMass`
(the source's `/1000` and `*1000` factors cancel) and `naohConsumption`
equals `molesRemoved` times the stoichiometric ratio. -/
theorem moles_removed_stoich (pollutant : PollutantProperties)
    (tower : TowerParameters)
    (gasFlowRate gasVelocity towerDiameter gasDensity liquidRate overallKGa
      towerArea operatingGasFlow operatingTemp : ℝ) (pd : PollutantData)
    (r : PerformanceResults)
    (hpd : POLLUTANT_LIBRARY pollutant.type = some pd)
    (hr : calculatePerformance pollutant tower gasFlowRate gasVelocity towerDiameter
        gasDensity liquidRate overallKGa towerArea operatingGasFlow operatingTemp =
      some r) :
    r.molesRemoved =
        gasFlowRate * (pollutant.inletConcentration - r.outletConcentration) /
          pd.molarMass ∧
      r.naohConsumption = r.molesRemoved * tower.naohStoichiometry := by
  rw [calculatePerformance, Option.map_eq_some'] at hr
  obtain ⟨pd', hpd', rfl⟩ := hr
  rw [hpd] at hpd'
  obtain rfl : pd = pd' := by injection hpd'
  refine ⟨?_, perfCore_naoh ..⟩
  rw [perfCore_moles, perfCore_outlet]
  ring

/-- C7.  Unknown pollutant fails loudly: a pollutant type outside the
static table makes the pipeline evaluation (and the mass-transfer stage,
where the thrown lookup error surfaces first) return the error value
`none`; no default property record is substituted. -/
theorem unknown_pollutant_fails (input : CalculatorInput)
    (h : input.pollutant.type ∉ (["SO2", "HCl", "NH3", "H2S"] : List String)) :
    calculateSprayTower input = none ∧
      ∀ gasDensity gasViscosity gasVelocity liquidFlux : ℝ,
        calculateMassTransfer input.pollutant input.tower gasDensity gasViscosity
          gasVelocity liquidFlux = none := by
  have hnone := POLLUTANT_LIBRARY_eq_none h
  constructor
  · rw [calculateSprayTower, hnone]; rfl
  · intro gd gv gvel lf
    rw [calculateMassTransfer, hnone]; rfl

/-- C8.  Compliance default-met policy: the evaluator reports
`emissionLimitsMet = false` exactly when its framework-specific table has
an entry for the pollutant and the outlet exceeds it; with no entry
(in particular always under the US framework, whose evaluator table is
empty) limits are reported as met. -/
theorem compliance_default_met (framework : RegulatoryFramework)
    (outletConcentration pressure : ℝ) (pollutantType : String) :
    ((calculateComplianceStatus framework outletConcentration pressure
          pollutantType).emissionLimitsMet = false ↔
      ∃ limit, evaluatorEmissionLimit framework pollutantType = some limit ∧
        outletConcentration > limit) ∧
    (evaluatorEmissionLimit framework pollutantType = none →
      (calculateComplianceStatus framework outletConcentration pressure
          pollutantType).emissionLimitsMet = true) := by
  cases framework
  case EU =>
    cases heq : euLimits pollutantType with
    | none =>
      simp [calculateComplianceStatus, evaluatorEmissionLimit, heq]
    | some limit =>
      have hpos := euLimits_pos heq
      constructor
      · simp only [calculateComplianceStatus, evaluatorEmissionLimit, heq]
        constructor
        · intro hmet
          refine ⟨limit, rfl, ?_⟩
          by_contra hout
          rw [if_neg (by rintro ⟨-, h2⟩; exact hout h2)] at hmet
          simp at hmet
        · rintro ⟨l, hl, hout⟩
          obtain rfl : limit = l := by injection hl
          rw [if_pos ⟨ne_of_gt hpos, hout⟩]
      · intro hnone
        simp [evaluatorEmissionLimit, heq] at hnone
  case US =>
    simp [calculateComplianceStatus, evaluatorEmissionLimit]

/-- C10.  A zero-valued override is indistinguishable from an absent one:
`gasViscosity = some 0` yields the fixed default viscosity `1.85e-5`, and
`kgaOverride = some 0` yields the empirically correlated KGa instead of
zero (JavaScript `||` treats `0` as absent). -/
theorem zero_override_defaults (gasStream : GasStreamProperties)
    (pollutant : PollutantProperties) (tower : TowerParameters)
    (gasDensity gasViscosity gasVelocity liquidFlux : ℝ) (r : MassTransferResults)
    (hg : gasStream.gasViscosity = some 0)
    (hk : tower.kgaOverride = some 0)
    (hr : calculateMassTransfer pollutant tower gasDensity gasViscosity gasVelocity
        liquidFlux = some r) :
    (calculateGasProperties gasStream).effectiveGasViscosity = 0.0000185 ∧
      r.overallKGa = calculatedKGa gasDensity gasVelocity liquidFlux := by
  constructor
  · show jsOrOpt gasStream.gasViscosity 0.0000185 = 0.0000185
    rw [hg]
    simp [jsOrOpt]
  · rw [calculateMassTransfer, Option.map_eq_some'] at hr
    obtain ⟨pd, hpd, rfl⟩ := hr
    rw [massTransferCore_kga, hk]
    simp [jsOrOpt]

/-- The bounded fixed-point loop either stops at a step whose update was
within tolerance, or returns the full `n`-fold iterate. -/
lemma dropIterate_spec (f : ℝ → ℝ) (n : ℕ) (v0 : ℝ) :
    (∃ v, dropIterate f n v0 = f v ∧ |f v - v| < 0.001) ∨
      dropIterate f n v0 = f^[n] v0 := by
  induction n generalizing v0 with
  | zero => exact Or.inr rfl
  | succ n ih =>
    rw [dropIterate]
    by_cases hc : |f v0 - v0| < 0.001
    · exact Or.inl ⟨v0, by rw [if_pos hc], hc⟩
    · rw [if_neg hc]
      rcases ih (f v0) with ⟨v, hv, hcv⟩ | heq
      · exact Or.inl ⟨v, hv, hcv⟩
      · right
        rw [heq, ← Function.iterate_succ_apply]

/-- C3.  Droplet solver bounded convergence: for physically valid inputs
the terminal-velocity fixed-point solve terminates within 10 steps (the
loop is structurally bounded by its fuel of 10) and the reported value
either differs from its previous iterate by less than `1e-3`, or is the
value produced by the 10th iteration. -/
theorem droplet_solver_bounded
    (dropletSize gasVelocity gasDensity gasViscosity liquidDensity sprayHeight : ℝ)
    (hd : 0 < dropletSize) (hg : 0 < gasDensity) (hv : 0 < gasViscosity)
    (hl : gasDensity < liquidDensity) :
    (∃ v, (calculateDropletPhysics dropletSize gasVelocity gasDensity gasViscosity
          liquidDensity sprayHeight).terminalVelocity =
        dropStep (dropletSize * 0.001) gasDensity gasViscosity liquidDensity v ∧
      |dropStep (dropletSize * 0.001) gasDensity gasViscosity liquidDensity v - v| <
        0.001) ∨
    (calculateDropletPhysics dropletSize gasVelocity gasDensity gasViscosity
        liquidDensity sprayHeight).terminalVelocity =
      (dropStep (dropletSize * 0.001) gasDensity gasViscosity liquidDensity)^[10]
        1.0 := by
  have hterm : (calculateDropletPhysics dropletSize gasVelocity gasDensity
      gasViscosity liquidDensity sprayHeight).terminalVelocity =
      dropIterate (dropStep (dropletSize * 0.001) gasDensity gasViscosity
        liquidDensity) 10 1.0 := rfl
  rw [hterm]
  exact dropIterate_spec _ 10 1.0

lemma sprayTowerCore_outlet (pd : PollutantData) (input : CalculatorInput) :
    (sprayTowerCore pd input).outletConcentration =
      input.pollutant.inletConcentration * (1 - input.pollutant.targetEfficiency) := rfl

lemma sprayTowerCore_compliance (pd : PollutantData) (input : CalculatorInput) :
    (sprayTowerCore pd input).complianceStatus =
      calculateComplianceStatus input.settings.regulatoryFramework
        (input.pollutant.inletConcentration * (1 - input.pollutant.targetEfficiency))
        ((calculateGasProperties input.gasStream).operatingPressure)
        input.pollutant.type := rfl

lemma calculateSprayTower_eq {input : CalculatorInput} {pd : PollutantData}
    (hpd : POLLUTANT_LIBRARY input.pollutant.type = some pd) :
    calculateSprayTower input = some (sprayTowerCore pd input) := by
  rw [calculateSprayTower, hpd]; rfl

lemma met_false_elim {fw : RegulatoryFramework} {outlet pressure : ℝ} {t : String}
    (h : (calculateComplianceStatus fw outlet pressure t).emissionLimitsMet = false) :
    fw = .EU ∧ ∃ L, euLimits t = some L ∧ 0 < L ∧ outlet > L := by
  cases fw
  case EU =>
    refine ⟨rfl, ?_⟩
    simp only [calculateComplianceStatus] at h
    cases heq : euLimits t with
    | none => rw [heq] at h; simp at h
    | some L =>
      simp only [heq] at h
      refine ⟨L, rfl, euLimits_pos heq, ?_⟩
      by_contra hout
      rw [if_neg (by rintro ⟨-, h2⟩; exact hout h2)] at h
      simp at h
  case US => simp [calculateComplianceStatus] at h

lemma met_of_le {outlet : ℝ} (pressure : ℝ) {t : String} {L : ℝ}
    (hL : euLimits t = some L) (hle : outlet ≤ L) :
    (calculateComplianceStatus .EU outlet pressure t).emissionLimitsMet = true := by
  simp only [calculateComplianceStatus, hL]
  rw [if_neg]
  rintro ⟨-, h2⟩
  exact absurd h2 (not_lt.mpr hle)

lemma met_false_of_gt {outlet : ℝ} (pressure : ℝ) {t : String} {L : ℝ}
    (hL : euLimits t = some L) (hgt : outlet > L) :
    (calculateComplianceStatus .EU outlet pressure t).emissionLimitsMet = false := by
  simp only [calculateComplianceStatus, hL]
  rw [if_pos ⟨(euLimits_pos hL).ne', hgt⟩]

lemma getEmissionLimits_EU {t : String} {L : ℝ} (hL : euLimits t = some L)
    (h0 : L ≠ 0) : getEmissionLimits .EU t = L := by
  simp [getEmissionLimits, jsOrOpt, hL, h0]

lemma optStep_phase1 (input cur : CalculatorInput) (maxIterations : ℕ)
    (requiredEfficiency : ℝ) (i : ℕ) (h : (i : ℝ) ≤ (maxIterations : ℝ) * 0.4) :
    optStep input cur maxIterations requiredEfficiency i =
      { cur with
        tower := { cur.tower with
          lgRatio := input.tower.lgRatio * (1 + (i : ℝ) * 0.1) }
        pollutant := { cur.pollutant with targetEfficiency := requiredEfficiency } } := by
  rw [optStep, if_pos h]

lemma optStep_settings (input cur : CalculatorInput) (maxIterations : ℕ)
    (requiredEfficiency : ℝ) (i : ℕ) :
    (optStep input cur maxIterations requiredEfficiency i).settings = cur.settings := by
  rw [optStep]
  split
  · rfl
  · split <;> rfl

lemma optStep_pollutant_of_late (input cur : CalculatorInput) (maxIterations : ℕ)
    (requiredEfficiency : ℝ) (i : ℕ) (h : ¬((i : ℝ) ≤ (maxIterations : ℝ) * 0.4)) :
    (optStep input cur maxIterations requiredEfficiency i).pollutant = cur.pollutant := by
  rw [optStep, if_neg h]
  split <;> rfl

lemma optStep_type (input cur : CalculatorInput) (maxIterations : ℕ)
    (requiredEfficiency : ℝ) (i : ℕ) :
    (optStep input cur maxIterations requiredEfficiency i).pollutant.type =
      cur.pollutant.type := by
  rw [optStep]
  split
  · rfl
  · split <;> rfl

lemma optStep_inlet (input cur : CalculatorInput) (maxIterations : ℕ)
    (requiredEfficiency : ℝ) (i : ℕ) :
    (optStep input cur maxIterations requiredEfficiency i).pollutant.inletConcentration =
      cur.pollutant.inletConcentration := by
  rw [optStep]
  split
  · rfl
  · split <;> rfl

/-- When the iteration budget admits a phase-1 iteration
(`1 ≤ 0.4·maxIterations`), the very first loop iteration pins the target
efficiency to the required value, the re-evaluated outlet is exactly
`0.9` times the emission limit, the compliance check passes, and the loop
exits compliant at iteration 1. -/
lemma optLoop_phase1_step (input : CalculatorInput) (maxIterations : ℕ)
    (L : ℝ) (pd : PollutantData)
    (hpd : POLLUTANT_LIBRARY input.pollutant.type = some pd)
    (hfw : input.settings.regulatoryFramework = .EU)
    (hL : euLimits input.pollutant.type = some L)
    (hinlet : input.pollutant.inletConcentration ≠ 0)
    (hphase : (1 : ℝ) ≤ (maxIterations : ℝ) * 0.4) :
    ∀ rem R0 trace,
      ∃ R1 inp1,
        optLoop input maxIterations
            (1 - L * 0.9 / input.pollutant.inletConcentration) (L * 0.9)
            (rem + 1) 1 input R0 none trace =
          some ⟨R1, inp1, 1, true, (R1 :: trace).reverse⟩ ∧
        R1.outletConcentration = L * 0.9 := by
  intro rem R0 trace
  have hLpos : 0 < L := euLimits_pos hL
  set next := optStep input input maxIterations
    (1 - L * 0.9 / input.pollutant.inletConcentration) 1 with hnext
  have hone : ((1 : ℕ) : ℝ) ≤ (maxIterations : ℝ) * 0.4 := by exact_mod_cast hphase
  have heff : next.pollutant.targetEfficiency =
      1 - L * 0.9 / input.pollutant.inletConcentration := by
    rw [hnext, optStep_phase1 _ _ _ _ _ hone]
  have hinl : next.pollutant.inletConcentration =
      input.pollutant.inletConcentration := optStep_inlet ..
  have htype : next.pollutant.type = input.pollutant.type := optStep_type ..
  have hsett : next.settings = input.settings := optStep_settings ..
  have hpdn : POLLUTANT_LIBRARY next.pollutant.type = some pd := by
    rw [htype]; exact hpd
  have hcalc : calculateSprayTower next = some (sprayTowerCore pd next) :=
    calculateSprayTower_eq hpdn
  have hout : (sprayTowerCore pd next).outletConcentration = L * 0.9 := by
    rw [sprayTowerCore_outlet, hinl, heff]
    field_simp
  have hmet : (sprayTowerCore pd next).complianceStatus.emissionLimitsMet = true := by
    rw [sprayTowerCore_compliance, hsett, hfw, htype]
    have harg : next.pollutant.inletConcentration *
        (1 - next.pollutant.targetEfficiency) = L * 0.9 := by
      rw [hinl, heff]
      field_simp
    rw [harg]
    exact met_of_le _ hL (by linarith)
  refine ⟨sprayTowerCore pd next, next, ?_, hout⟩
  simp only [optLoop]
  rw [← hnext, hcalc]
  dsimp only
  rw [if_pos hmet]

/-- When the budget admits no phase-1 iteration (`0.4·maxIterations < 1`),
no loop iteration ever mutates the pollutant spec, so every evaluation
reproduces the initial outlet concentration and stays non-compliant; on
every exit path the loop then returns, with `convergenceReached = false`,
a result drawn from the evaluated set whose outlet concentration is
minimal over it. -/
lemma optLoop_no_phase1 (input : CalculatorInput) (maxIterations : ℕ)
    (requiredEfficiency targetOutlet L : ℝ) (pd : PollutantData)
    (hpd : POLLUTANT_LIBRARY input.pollutant.type = some pd)
    (hfw : input.settings.regulatoryFramework = .EU)
    (hL : euLimits input.pollutant.type = some L)
    (hphase : (maxIterations : ℝ) * 0.4 < 1)
    (hgt : input.pollutant.inletConcentration *
        (1 - input.pollutant.targetEfficiency) > L) :
    ∀ rem i cur last best trace,
      1 ≤ i →
      cur.pollutant = input.pollutant →
      cur.settings = input.settings →
      last.outletConcentration =
        input.pollutant.inletConcentration *
          (1 - input.pollutant.targetEfficiency) →
      last ∈ trace →
      (∀ r ∈ trace, r.outletConcentration =
        input.pollutant.inletConcentration *
          (1 - input.pollutant.targetEfficiency)) →
      (∀ br bi, best = some (br, bi) → br ∈ trace) →
      ∃ res,
        optLoop input maxIterations requiredEfficiency targetOutlet rem i cur last
            best trace = some res ∧
          res.convergenceReached = false ∧
          res.results ∈ res.evaluations ∧
          ∀ r ∈ res.evaluations,
            res.results.outletConcentration ≤ r.outletConcentration := by
  intro rem
  induction rem with
  | zero =>
    intro i cur last best trace hi hcp hcs hlast hlmem htr hbest
    cases best with
    | none =>
      refine ⟨⟨last, cur, i, false, trace.reverse⟩, ?_, rfl, ?_, ?_⟩
      · simp only [optLoop]
      · exact List.mem_reverse.mpr hlmem
      · intro r hr
        rw [List.mem_reverse] at hr
        exact le_of_eq (hlast.trans (htr r hr).symm)
    | some p =>
      obtain ⟨br, bi⟩ := p
      have hbrmem := hbest br bi rfl
      refine ⟨⟨br, bi, i, false, trace.reverse⟩, ?_, rfl, ?_, ?_⟩
      · simp only [optLoop]
      · exact List.mem_reverse.mpr hbrmem
      · intro r hr
        rw [List.mem_reverse] at hr
        exact le_of_eq ((htr br hbrmem).trans (htr r hr).symm)
  | succ rem ih =>
    intro i cur last best trace hi hcp hcs hlast hlmem htr hbest
    have hicast : (1 : ℝ) ≤ (i : ℝ) := by exact_mod_cast hi
    have hnotp1 : ¬((i : ℝ) ≤ (maxIterations : ℝ) * 0.4) := by
      push_neg
      linarith
    have hpoll : (optStep input cur maxIterations requiredEfficiency i).pollutant =
        input.pollutant :=
      (optStep_pollutant_of_late _ _ _ _ _ hnotp1).trans hcp
    have hsett : (optStep input cur maxIterations requiredEfficiency i).settings =
        input.settings := (optStep_settings ..).trans hcs
    have hpdn : POLLUTANT_LIBRARY
        (optStep input cur maxIterations requiredEfficiency i).pollutant.type =
        some pd := by rw [hpoll]; exact hpd
    have hcalc : calculateSprayTower (optStep input cur maxIterations
        requiredEfficiency i) =
        some (sprayTowerCore pd (optStep input cur maxIterations
          requiredEfficiency i)) := calculateSprayTower_eq hpdn
    have hRout : (sprayTowerCore pd (optStep input cur maxIterations
        requiredEfficiency i)).outletConcentration =
        input.pollutant.inletConcentration *
          (1 - input.pollutant.targetEfficiency) := by
      rw [sprayTowerCore_outlet, hpoll]
    have hRmet : (sprayTowerCore pd (optStep input cur maxIterations
        requiredEfficiency i)).complianceStatus.emissionLimitsMet = false := by
      rw [sprayTowerCore_compliance, hpoll, hsett, hfw]
      exact met_false_of_gt _ hL hgt
    have htr' : ∀ r ∈ (sprayTowerCore pd (optStep input cur maxIterations
        requiredEfficiency i)) :: trace,
        r.outletConcentration =
          input.pollutant.inletConcentration *
            (1 - input.pollutant.targetEfficiency) := by
      intro r hr
      rcases List.mem_cons.mp hr with rfl | hr'
      · exact hRout
      · exact htr r hr'
    simp only [optLoop]
    rw [hcalc]
    dsimp only
    rw [if_neg (by rw [hRmet]; simp)]
    cases best with
    | none =>
      dsimp only
      by_cases hdiv : 5 < i ∧ (sprayTowerCore pd (optStep input cur maxIterations
          requiredEfficiency i)).outletConcentration > targetOutlet * 2
      · rw [if_pos hdiv]
        refine ⟨_, rfl, rfl, ?_, ?_⟩
        · exact List.mem_reverse.mpr (List.mem_cons_self _ _)
        · intro r hr
          rw [List.mem_reverse] at hr
          exact le_of_eq (hRout.trans (htr' r hr).symm)
      · rw [if_neg hdiv]
        exact ih (i + 1) _ _ _ _ (by omega) hpoll hsett hRout
          (List.mem_cons_self _ _) htr'
          (by rintro br2 bi2 h2; injection h2 with h3; injection h3 with h4 h5
              rw [← h4]; exact List.mem_cons_self _ _)
    | some p =>
      obtain ⟨br, bi⟩ := p
      have hbrmem := hbest br bi rfl
      have hbrout : br.outletConcentration =
          input.pollutant.inletConcentration *
            (1 - input.pollutant.targetEfficiency) := htr br hbrmem
      dsimp only
      have hltfalse : ¬((sprayTowerCore pd (optStep input cur maxIterations
          requiredEfficiency i)).outletConcentration < br.outletConcentration) := by
        rw [hRout, hbrout]
        exact lt_irrefl _
      by_cases hdiv : 5 < i ∧ (sprayTowerCore pd (optStep input cur maxIterations
          requiredEfficiency i)).outletConcentration > targetOutlet * 2
      · rw [if_pos hdiv, if_neg hltfalse]
        dsimp only
        refine ⟨_, rfl, rfl, ?_, ?_⟩
        · exact List.mem_reverse.mpr (List.mem_cons_of_mem _ hbrmem)
        · intro r hr
          rw [List.mem_reverse] at hr
          exact le_of_eq (hbrout.trans (htr' r hr).symm)
      · rw [if_neg hdiv, if_neg hltfalse]
        exact ih (i + 1) _ _ _ _ (by omega) hpoll hsett hRout
          (List.mem_cons_self _ _) htr'
          (by rintro br2 bi2 h2; injection h2 with h3; injection h3 with h4 h5
              rw [← h4]; exact List.mem_cons_of_mem _ hbrmem)

lemma optimizeForCompliance_eq {input : CalculatorInput} {pd : PollutantData}
    (maxIterations : ℕ) (hpd : POLLUTANT_LIBRARY input.pollutant.type = some pd) :
    optimizeForCompliance input maxIterations =
      if (sprayTowerCore pd input).complianceStatus.emissionLimitsMet = true then
        some ⟨sprayTowerCore pd input, input, 0, true, [sprayTowerCore pd input]⟩
      else
        optLoop input maxIterations
          (1 - getEmissionLimits input.settings.regulatoryFramework
              input.pollutant.type * 0.9 / input.pollutant.inletConcentration)
          (getEmissionLimits input.settings.regulatoryFramework
              input.pollutant.type * 0.9)
          maxIterations 1 input (sprayTowerCore pd input) none
          [sprayTowerCore pd input] := by
  unfold optimizeForCompliance
  rw [calculateSprayTower_eq hpd]

/-- C4.  Optimizer best-effort contract: for every input whose pollutant
is in the static table (the only error source), `optimizeForCompliance`
returns a result rather than raising; and whenever it reports
`convergenceReached = false` — i.e. the iteration budget was exhausted or
the post-iteration-5 divergence check (outlet above 2× the 90%-of-limit
target) fired — the returned result is one of the evaluated results and
has the lowest outlet concentration among all of them, independent of
the phase that produced it. -/
theorem optimizer_best_effort (input : CalculatorInput) (maxIterations : ℕ)
    (pd : PollutantData)
    (hpd : POLLUTANT_LIBRARY input.pollutant.type = some pd) :
    ∃ res, optimizeForCompliance input maxIterations = some res ∧
      (res.convergenceReached = false →
        res.results ∈ res.evaluations ∧
        ∀ r ∈ res.evaluations,
          res.results.outletConcentration ≤ r.outletConcentration) := by
  rw [optimizeForCompliance_eq maxIterations hpd]
  by_cases hmet : (sprayTowerCore pd input).complianceStatus.emissionLimitsMet = true
  · rw [if_pos hmet]
    refine ⟨_, rfl, ?_⟩
    intro h
    simp at h
  · have hmet' : (sprayTowerCore pd input).complianceStatus.emissionLimitsMet =
        false := by
      cases hb : (sprayTowerCore pd input).complianceStatus.emissionLimitsMet
      · rfl
      · exact absurd hb hmet
    rw [if_neg hmet]
    obtain ⟨hfw, L, hL, hLpos, hgt⟩ :=
      met_false_elim (by rw [← sprayTowerCore_compliance]; exact hmet')
    have hinlet : input.pollutant.inletConcentration ≠ 0 := by
      intro h0
      rw [h0, zero_mul] at hgt
      linarith
    rw [hfw, getEmissionLimits_EU hL hLpos.ne']
    by_cases hph : (1 : ℝ) ≤ (maxIterations : ℝ) * 0.4
    · have hm1 : maxIterations ≠ 0 := by
        rintro rfl
        norm_num at hph
      obtain ⟨m, rfl⟩ : ∃ m, maxIterations = m + 1 := ⟨maxIterations - 1, by omega⟩
      obtain ⟨R1, inp1, hloop, hout1⟩ :=
        optLoop_phase1_step input (m + 1) L pd hpd hfw hL hinlet hph m
          (sprayTowerCore pd input) [sprayTowerCore pd input]
      refine ⟨_, hloop, ?_⟩
      intro h
      simp at h
    · push_neg at hph
      obtain ⟨res, hloop, hconv, hmem, hmin⟩ :=
        optLoop_no_phase1 input maxIterations
          (1 - L * 0.9 / input.pollutant.inletConcentration) (L * 0.9) L pd hpd hfw
          hL hph hgt maxIterations 1 input (sprayTowerCore pd input) none
          [sprayTowerCore pd input] le_rfl rfl rfl (sprayTowerCore_outlet ..)
          (List.mem_cons_self _ _)
          (by
            intro r hr
            simp only [List.mem_singleton] at hr
            subst hr
            exact sprayTowerCore_outlet ..)
          (by intro br bi h; simp at h)
      exact ⟨res, hloop, fun _ => ⟨hmem, hmin⟩⟩

/-- C9.  Under the EU framework with a limit entry for the pollutant, a
non-compliant initial evaluation is repaired in exactly one optimizer
iteration with the default budget of 20: phase 1 pins the target
efficiency to the required value, so the re-evaluated outlet is exactly
90% of the emission limit regardless of the L/G mutation, compliance
holds, and the search exits with `convergenceReached = true` — phases 2
and 3 and the divergence check are never reached. -/
theorem eu_phase1_one_iteration (input : CalculatorInput) (pd : PollutantData)
    (L : ℝ) (R0 : CalculationResults)
    (hpd : POLLUTANT_LIBRARY input.pollutant.type = some pd)
    (hfw : input.settings.regulatoryFramework = .EU)
    (hL : euLimits input.pollutant.type = some L)
    (hR0 : calculateSprayTower input = some R0)
    (hnc : R0.complianceStatus.emissionLimitsMet = false) :
    ∃ res, optimizeForCompliance input 20 = some res ∧
      res.iterations = 1 ∧ res.convergenceReached = true ∧
      res.results.outletConcentration = L * 0.9 := by
  have hcalc : calculateSprayTower input = some (sprayTowerCore pd input) :=
    calculateSprayTower_eq hpd
  have hR0eq : R0 = sprayTowerCore pd input := by
    rw [hcalc] at hR0
    injection hR0 with h
    exact h.symm
  subst hR0eq
  have hLpos : 0 < L := euLimits_pos hL
  obtain ⟨-, L', hL', -, hgt'⟩ :=
    met_false_elim (by rw [← sprayTowerCore_compliance]; exact hnc)
  have hgt : input.pollutant.inletConcentration *
      (1 - input.pollutant.targetEfficiency) > L := by
    have hLL : L' = L := by
      rw [hL] at hL'
      injection hL' with h
      exact h.symm
    rwa [hLL] at hgt'
  have hinlet : input.pollutant.inletConcentration ≠ 0 := by
    intro h0
    rw [h0, zero_mul] at hgt
    linarith
  rw [optimizeForCompliance_eq 20 hpd]
  rw [if_neg (by rw [hnc]; simp)]
  rw [hfw, getEmissionLimits_EU hL hLpos.ne']
  have hph : (1 : ℝ) ≤ ((20 : ℕ) : ℝ) * 0.4 := by norm_num
  obtain ⟨R1, inp1, hloop, hout1⟩ :=
    optLoop_phase1_step input 20 L pd hpd hfw hL hinlet hph 19
      (sprayTowerCore pd input) [sprayTowerCore pd input]
  exact ⟨⟨R1, inp1, 1, true, _⟩, hloop, rfl, rfl, hout1⟩

/-- The SO₂ row of the pollutant table, used for concrete instantiations. -/
noncomputable def so2Data : PollutantData := ⟨1230, 0.000012, 64.066⟩

/-- The default SO₂ pollutant spec (inlet 1500 mg/Nm³, efficiency 0.9). -/
noncomputable def pSO2 : PollutantProperties := ⟨"SO2", 1500, 0.9⟩

/-- The default tower parameters of `constants.ts`. -/
noncomputable def towerDefault : TowerParameters :=
  ⟨0.015, 1000, 0.001, 3, 0.8, none, 1.5, none, 0.02, 10, 1⟩

lemma POLLUTANT_LIBRARY_SO2 : POLLUTANT_LIBRARY pSO2.type = some so2Data := rfl

/-- A concrete performance evaluation at the default SO₂ scenario. -/
noncomputable def perfW : PerformanceResults :=
  perfCore so2Data pSO2 towerDefault 20000 3 1.6 1.1 343.9 0.5 2.1 6.4 313.15

lemma calculatePerformance_W :
    calculatePerformance pSO2 towerDefault 20000 3 1.6 1.1 343.9 0.5 2.1 6.4
      313.15 = some perfW := by
  unfold calculatePerformance
  rw [POLLUTANT_LIBRARY_SO2, Option.map_some']
  rfl

/-- Witness for C1 at the default SO₂ scenario. -/
theorem mass_balance_outlet_w :
    perfW.outletConcentration = 1500 * (1 - 0.9) ∧
      0 ≤ perfW.outletConcentration ∧ perfW.outletConcentration ≤ 1500 := by
  have h := mass_balance_outlet pSO2 towerDefault 20000 3 1.6 1.1 343.9 0.5 2.1
    6.4 313.15 perfW calculatePerformance_W (by norm_num [pSO2])
    (by norm_num [pSO2]) (by norm_num [pSO2])
  exact ⟨h.1, h.2.1, h.2.2.1⟩

/-- Witness for C2 at the default SO₂ scenario. -/
theorem ntu_identity_w :
    (0 < perfW.outletConcentration →
      perfW.numberOfTransferUnits = Real.log (1500 / perfW.outletConcentration)) ∧
    (perfW.outletConcentration = 0 → perfW.numberOfTransferUnits = 0) :=
  ntu_identity pSO2 towerDefault 20000 3 1.6 1.1 343.9 0.5 2.1 6.4 313.15 perfW
    calculatePerformance_W

/-- Witness for C5 at the default SO₂ scenario. -/
theorem height_zero_guard_w :
    ∃ V : ℝ,
      V = (if (0.5 : ℝ) > 0 ∧ perfW.numberOfTransferUnits > 0 then
          ((101325 * 6.4) / (8314.462618 * 313.15)) *
            perfW.numberOfTransferUnits / 0.5
        else 0) ∧
      perfW.requiredHeight = (if (2.1 : ℝ) > 0 ∧ V > 0 then V / 2.1 else 0) ∧
      ((0.5 : ℝ) = 0 → perfW.requiredHeight = 0) ∧
      (perfW.numberOfTransferUnits = 0 → perfW.requiredHeight = 0) :=
  height_zero_guard pSO2 towerDefault 20000 3 1.6 1.1 343.9 0.5 2.1 6.4 313.15
    perfW calculatePerformance_W

/-- Witness for C6 at the default SO₂ scenario. -/
theorem moles_removed_stoich_w :
    perfW.molesRemoved =
        20000 * (1500 - perfW.outletConcentration) / so2Data.molarMass ∧
      perfW.naohConsumption = perfW.molesRemoved * towerDefault.naohStoichiometry :=
  moles_removed_stoich pSO2 towerDefault 20000 3 1.6 1.1 343.9 0.5 2.1 6.4 313.15
    so2Data perfW POLLUTANT_LIBRARY_SO2 calculatePerformance_W

/-- Witness for C3 at the default droplet scenario (0.8 mm droplets,
air-like density and viscosity, water droplets). -/
theorem droplet_solver_bounded_w :
    (∃ v, (calculateDropletPhysics 0.8 3 1.2 0.0000185 1000 5).terminalVelocity =
        dropStep (0.8 * 0.001) 1.2 0.0000185 1000 v ∧
      |dropStep (0.8 * 0.001) 1.2 0.0000185 1000 v - v| < 0.001) ∨
    (calculateDropletPhysics 0.8 3 1.2 0.0000185 1000 5).terminalVelocity =
      (dropStep (0.8 * 0.001) 1.2 0.0000185 1000)^[10] 1.0 :=
  droplet_solver_bounded 0.8 3 1.2 0.0000185 1000 5 (by norm_num) (by norm_num)
    (by norm_num) (by norm_num)

/-- A complete default calculator input (metric, EU, SO₂ at 90%). -/
noncomputable def inputW : CalculatorInput :=
  ⟨⟨20000, 40, 101.325, none⟩, pSO2, towerDefault, ⟨.metric, .EU, "gas_absorption"⟩⟩

/-- Witness for C4 at the default input with the default budget. -/
theorem optimizer_best_effort_w :
    ∃ res, optimizeForCompliance inputW 20 = some res ∧
      (res.convergenceReached = false →
        res.results ∈ res.evaluations ∧
        ∀ r ∈ res.evaluations,
          res.results.outletConcentration ≤ r.outletConcentration) :=
  optimizer_best_effort inputW 20 so2Data POLLUTANT_LIBRARY_SO2

/-- An input whose pollutant type is not a key of the static table. -/
noncomputable def inputCO2 : CalculatorInput :=
  ⟨⟨20000, 40, 101.325, none⟩, ⟨"CO2", 1000, 0.9⟩, towerDefault,
    ⟨.metric, .EU, "gas_absorption"⟩⟩

/-- Witness for C7: a CO₂ input makes the pipeline fail. -/
theorem unknown_pollutant_fails_w :
    calculateSprayTower inputCO2 = none ∧
      ∀ gasDensity gasViscosity gasVelocity liquidFlux : ℝ,
        calculateMassTransfer inputCO2.pollutant inputCO2.tower gasDensity
          gasViscosity gasVelocity liquidFlux = none :=
  unknown_pollutant_fails inputCO2 (by decide)

/-- Witness for C8: an instance of the compliance characterization under
the US framework (whose evaluator table is empty). -/
theorem compliance_default_met_w :
    ((calculateComplianceStatus .US 1000000 101325 "SO2").emissionLimitsMet =
        false ↔
      ∃ limit, evaluatorEmissionLimit .US "SO2" = some limit ∧
        (1000000 : ℝ) > limit) ∧
    (evaluatorEmissionLimit .US "SO2" = none →
      (calculateComplianceStatus .US 1000000 101325 "SO2").emissionLimitsMet =
        true) :=
  compliance_default_met .US 1000000 101325 "SO2"

/-- The spec's non-compliance scenario: SO₂ at 50% efficiency under EU. -/
noncomputable def inputNC : CalculatorInput :=
  ⟨⟨20000, 40, 101.325, none⟩, ⟨"SO2", 1500, 0.5⟩, towerDefault,
    ⟨.metric, .EU, "gas_absorption"⟩⟩

lemma POLLUTANT_LIBRARY_NC : POLLUTANT_LIBRARY inputNC.pollutant.type = some so2Data := rfl

/-- Witness for C9 at the spec's non-compliance scenario (outlet 750 above
the 200 mg/Nm³ EU SO₂ limit). -/
theorem eu_phase1_one_iteration_w :
    ∃ res, optimizeForCompliance inputNC 20 = some res ∧
      res.iterations = 1 ∧ res.convergenceReached = true ∧
      res.results.outletConcentration = 200 * 0.9 :=
  eu_phase1_one_iteration inputNC so2Data 200 (sprayTowerCore so2Data inputNC)
    POLLUTANT_LIBRARY_NC rfl rfl (calculateSprayTower_eq POLLUTANT_LIBRARY_NC)
    (by
      rw [sprayTowerCore_compliance]
      exact met_false_of_gt _ (rfl) (by norm_num [inputNC]))

/-- Inputs carrying explicit zero overrides. -/
noncomputable def gasW0 : GasStreamProperties := ⟨20000, 40, 101.325, some 0⟩

/-- Tower parameters with an explicit zero KGa override. -/
noncomputable def towerK0 : TowerParameters :=
  ⟨0.015, 1000, 0.001, 3, 0.8, none, 1.5, some 0, 0.02, 10, 1⟩

lemma calculateMassTransfer_W :
    calculateMassTransfer pSO2 towerK0 1.2 0.0000185 3 0.01 =
      some (massTransferCore so2Data towerK0 1.2 0.0000185 3 0.01) := by
  unfold calculateMassTransfer
  rw [POLLUTANT_LIBRARY_SO2, Option.map_some']

/-- Witness for C10 with both overrides provided as zero. -/
theorem zero_override_defaults_w :
    (calculateGasProperties gasW0).effectiveGasViscosity = 0.0000185 ∧
      (massTransferCore so2Data towerK0 1.2 0.0000185 3 0.01).overallKGa =
        calculatedKGa 1.2 3 0.01 :=
  zero_override_defaults gasW0 pSO2 towerK0 1.2 0.0000185 3 0.01
    (massTransferCore so2Data towerK0 1.2 0.0000185 3 0.01) rfl rfl
    calculateMassTransfer_W

end SprayTower
